import Mathlib

/-!
Verification development for the health-live metric-derivation engine
(the dashboard page's pure computation: field resolution, sleep-unit
normalization, per-record normalization, baselines, score engine and
trend builder).  JavaScript numbers are modelled as exact rationals plus
an explicit NaN value; `null`/`undefined` are modelled with `Option`.
-/

namespace HealthLive

/-- A raw metric value as stored in an ingested record: per the data
contract, either a number or a string.  (JSON cannot encode NaN or
Infinity, so raw numbers are finite.) -/
inductive RawVal
  | num (q : ℚ)
  | str (s : String)
  deriving DecidableEq, Repr

/-- The result of a JavaScript numeric computation or coercion: either a
finite number (exact rational model) or NaN. -/
inductive JSNum
  | nan
  | num (q : ℚ)
  deriving DecidableEq, Repr

/-- A raw ingested record: `{ ingest_date, metrics, workouts }` where the
nested mappings may be null and the timestamp may be missing. -/
structure RawRecord where
  ingest_date : Option String
  metrics : Option (List (String × RawVal))
  workouts : Option (List (String × RawVal))
  deriving DecidableEq, Repr

/-- Accumulate a run of leading decimal digits: returns the value read so
far, the number of digits consumed, and the rest of the characters. -/
def takeDigitsAux : List Char → ℕ → ℕ → ℕ × ℕ × List Char
  | [], acc, n => (acc, n, [])
  | c :: cs, acc, n =>
    if c.isDigit then takeDigitsAux cs (10 * acc + (c.toNat - 48)) (n + 1)
    else (acc, n, c :: cs)

/-- Consume an optional leading sign, returning whether it was `-`. -/
def takeNeg : List Char → Bool × List Char
  | '+' :: cs => (false, cs)
  | '-' :: cs => (true, cs)
  | cs => (false, cs)

/-- Parse a leading decimal literal (sign, integer part, optional
fractional part, optional exponent), returning the value and the
unconsumed rest, or `none` when no digits are found.  Models the
JavaScript decimal-literal grammar; hex literals and `Infinity` are not
modelled (no claim depends on them). -/
def parseDec (cs : List Char) : Option (ℚ × List Char) :=
  let (neg, cs1) := takeNeg cs
  let (ip, ni, cs2) := takeDigitsAux cs1 0 0
  let (fp, nf, cs3) :=
    match cs2 with
    | '.' :: cs2' => takeDigitsAux cs2' 0 0
    | _ => (0, 0, cs2)
  if ni + nf = 0 then none
  else
    let base : ℚ := (if neg then -1 else 1) * ((ip : ℚ) + (fp : ℚ) / (10 : ℚ) ^ nf)
    match cs3 with
    | c :: cs4 =>
      if c = 'e' ∨ c = 'E' then
        let (eneg, cs5) := takeNeg cs4
        let (ev, ne, cs6) := takeDigitsAux cs5 0 0
        if ne = 0 then some (base, cs3)
        else some ((if eneg then base / (10 : ℚ) ^ ev else base * (10 : ℚ) ^ ev), cs6)
      else some (base, cs3)
    | [] => some (base, [])

/-- Strip leading and trailing whitespace from a character list (the
trimming JavaScript `Number` applies to its string argument). -/
def trimChars (cs : List Char) : List Char :=
  ((cs.dropWhile fun c => c.isWhitespace).reverse.dropWhile
    fun c => c.isWhitespace).reverse

/-- JavaScript `Number(string)`: whitespace-trimmed; empty string is 0; a
full decimal literal is its value; anything else is NaN. -/
def jsStrToNumber (s : String) : JSNum :=
  let cs := trimChars s.toList
  if cs = [] then .num 0
  else
    match parseDec cs with
    | some (q, []) => .num q
    | _ => .nan

/-- JavaScript `Number(v)` on a raw metric value. -/
def jsNumber : RawVal → JSNum
  | .num q => .num q
  | .str s => jsStrToNumber s

/-- JavaScript `parseFloat(string)`: skip leading whitespace, parse the
longest decimal-literal prefix, NaN when none. -/
def jsParseFloat (s : String) : JSNum :=
  match parseDec (s.toList.dropWhile fun c => c.isWhitespace) with
  | some (q, _) => .num q
  | none => .nan

/-- `getMetric(obj, keys)`: return the value of the first candidate key
bound to a non-null value, else absent (source line 37). -/
def getMetric (obj : List (String × RawVal)) : List String → Option RawVal
  | [] => none
  | k :: ks =>
    match obj.lookup k with
    | some v => some v
    | none => getMetric obj ks

/-- `v != null ? Number(v) : null` — the numeric coercion applied to each
resolved non-sleep metric (source lines 138-145). -/
def coerce : Option RawVal → Option JSNum
  | some r => some (jsNumber r)
  | none => none

/-- The sleep-hours branch of `normalize` (source lines 100-112): numbers
above 50 are divided by 3600, numbers at most 50 pass through, strings go
through `parseFloat` and pass through unscaled when they parse. -/
def normalizeSleep : Option RawVal → Option ℚ
  | none => none
  | some (.num q) => if q > 50 then some (q / 3600) else some q
  | some (.str s) =>
    match jsParseFloat s with
    | .num q => some q
    | .nan => none

/-- Candidate keys for HRV (source lines 72-79). -/
def hrvKeys : List String :=
  ["hrv", "hrvAverage", "hrv_average", "averageHrv", "HRV", "hrvAvg"]

/-- Candidate keys for resting heart rate (source lines 80-86). -/
def rhrKeys : List String :=
  ["restingHeartRate", "rhr", "resting_heart_rate", "restingHeartRateAvg", "RHR"]

/-- Candidate keys for step count (source lines 87-92). -/
def stepsKeys : List String :=
  ["steps", "stepCount", "step_count", "dailyStepCount"]

/-- Candidate keys for raw sleep duration (source lines 94-99). -/
def sleepKeys : List String :=
  ["sleepHours", "sleepDuration", "totalSleepTime", "sleepDurationHours"]

/-- Candidate keys for training load (source lines 113-118). -/
def loadKeys : List String :=
  ["trainingLoad", "trimp", "TRIMP", "training_load"]

/-- Candidate keys for blood oxygen (source lines 119-124). -/
def spo2Keys : List String :=
  ["oxygenSaturation", "spo2", "SpO2", "blood_oxygen_percentage"]

/-- Candidate keys for respiratory rate (source lines 125-129). -/
def respKeys : List String :=
  ["respiratoryRate", "respirationRate", "respiratory_rate"]

/-- Candidate keys for temperature (source lines 130-135). -/
def tempKeys : List String :=
  ["temperature", "wristTemperature", "wristTemp", "bodyTemperature"]

/-- One normalized per-day metric tuple (the object returned at source
lines 136-146).  `sleepHours` is never NaN by construction, so it is a
plain optional rational; the coerced fields may hold NaN. -/
structure NormalizedDay where
  date : String
  hrv : Option JSNum
  rhr : Option JSNum
  steps : Option JSNum
  sleepHours : Option ℚ
  trainingLoad : Option JSNum
  spo2 : Option JSNum
  respiratoryRate : Option JSNum
  temperature : Option JSNum
  deriving DecidableEq, Repr

/-- `normalize` of one raw entry: the body of `entries.map((entry) => ...)`
at source lines 67-147. -/
def normalize (entry : RawRecord) : NormalizedDay :=
  let metrics := entry.metrics.getD []
  let date :=
    match entry.ingest_date with
    | some d => d.take 10
    | none => ""
  { date := date
    hrv := coerce (getMetric metrics hrvKeys)
    rhr := coerce (getMetric metrics rhrKeys)
    steps := coerce (getMetric metrics stepsKeys)
    sleepHours := normalizeSleep (getMetric metrics sleepKeys)
    trainingLoad := coerce (getMetric metrics loadKeys)
    spo2 := coerce (getMetric metrics spo2Keys)
    respiratoryRate := coerce (getMetric metrics respKeys)
    temperature := coerce (getMetric metrics tempKeys) }

/-- The `processed` sequence (source line 67): one NormalizedDay per raw
entry, in order. -/
def processedOf (entries : List RawRecord) : List NormalizedDay :=
  entries.map normalize

/-- The values of one metric that survive the `v != null && !isNaN(v)`
filter (source lines 150-158): the finite numbers among them. -/
def finiteVals (vals : List (Option JSNum)) : List ℚ :=
  vals.filterMap fun v =>
    match v with
    | some (.num q) => some q
    | _ => none

/-- A baseline (source lines 160-168): the left-fold sum of the filtered
values divided by their count, null when the filtered list is empty. -/
def baselineOf (vals : List (Option JSNum)) : Option ℚ :=
  let xs := finiteVals vals
  if xs.length = 0 then none
  else some ((xs.foldl (· + ·) 0) / (xs.length : ℚ))

/-- `baselineHRV` (source lines 160-162). -/
def baselineHRV (entries : List RawRecord) : Option ℚ :=
  baselineOf ((processedOf entries).map (·.hrv))

/-- `baselineRHR` (source lines 163-165). -/
def baselineRHR (entries : List RawRecord) : Option ℚ :=
  baselineOf ((processedOf entries).map (·.rhr))

/-- `baselineLoad` (source lines 166-168). -/
def baselineLoad (entries : List RawRecord) : Option ℚ :=
  baselineOf ((processedOf entries).map (·.trainingLoad))

/-- `latest` (source line 159): the last processed day, or the empty
object (every field access then yields undefined, modelled through
`Option.bind`). -/
def latestOf (entries : List RawRecord) : Option NormalizedDay :=
  (processedOf entries).getLast?

/-- Field access on `latest`, absent when the history is empty. -/
def latestField (entries : List RawRecord) (f : NormalizedDay → Option JSNum) :
    Option JSNum :=
  (latestOf entries).bind f

/-- JavaScript `Math.round` on a finite value: half-up, i.e. toward
positive infinity at ties. -/
def jsRound (q : ℚ) : ℤ := ⌊q + 1 / 2⌋

/-- The truthiness-gated unrounded recovery formula shared by the
recovery score (source lines 169-175) and the recovery trend (source
lines 240-247): defined only when baseline HRV, day HRV, baseline RHR and
day RHR are all truthy (non-null, non-NaN and nonzero). -/
def recoveryFormula (bh : Option ℚ) (hv : Option JSNum) (br : Option ℚ)
    (rv : Option JSNum) : Option ℚ :=
  match bh, hv, br, rv with
  | some b, some (.num h), some b2, some (.num r) =>
    if b ≠ 0 ∧ h ≠ 0 ∧ b2 ≠ 0 ∧ r ≠ 0 then
      some (((h / b) * 0.7 + (b2 / r) * 0.3) * 100)
    else none
  | _, _, _, _ => none

/-- The truthiness-gated unrounded exertion formula shared by the
exertion score (source lines 176-179) and the exertion trend (source
lines 248-253). -/
def exertionFormula (bl : Option ℚ) (tl : Option JSNum) : Option ℚ :=
  match bl, tl with
  | some b, some (.num t) =>
    if b ≠ 0 ∧ t ≠ 0 then some ((t / b) * 100) else none
  | _, _ => none

/-- `recoveryScore` (source lines 169-175). -/
def recoveryScore (entries : List RawRecord) : Option ℤ :=
  (recoveryFormula (baselineHRV entries) (latestField entries (·.hrv))
      (baselineRHR entries) (latestField entries (·.rhr))).map jsRound

/-- `exertionScore` (source lines 176-179). -/
def exertionScore (entries : List RawRecord) : Option ℤ :=
  (exertionFormula (baselineLoad entries)
      (latestField entries (·.trainingLoad))).map jsRound

/-- Target-zone classification values. -/
inductive Zone
  | High
  | Moderate
  | Low
  deriving DecidableEq, Repr

/-- `targetZone` (source lines 181-186). -/
def targetZone (entries : List RawRecord) : Option Zone :=
  match recoveryScore entries with
  | none => none
  | some s =>
    if s ≥ 90 then some .High
    else if s ≥ 70 then some .Moderate
    else some .Low

/-- Sleep-quality classification values. -/
inductive Quality
  | Excellent
  | Average
  | Poor
  deriving DecidableEq, Repr

/-- `sleepQuality` (source lines 188-193). -/
def sleepQuality (entries : List RawRecord) : Option Quality :=
  match (latestOf entries).bind (·.sleepHours) with
  | none => none
  | some s =>
    if s ≥ 7.5 then some .Excellent
    else if s ≥ 6 then some .Average
    else some .Poor

/-- `latest.x != null && latest.x < c` with NaN comparing false. -/
def jsLtNum (v : Option JSNum) (c : ℚ) : Bool :=
  match v with
  | some (.num q) => q < c
  | _ => false

/-- `latest.x != null && latest.x > c` with NaN comparing false. -/
def jsGtNum (v : Option JSNum) (c : ℚ) : Bool :=
  match v with
  | some (.num q) => q > c
  | _ => false

/-- `alerts` (source lines 195-204), in push order. -/
def alerts (entries : List RawRecord) : List String :=
  (if jsLtNum ((latestOf entries).bind (·.spo2)) 95 then ["Low SpO2"] else []) ++
  (if jsGtNum ((latestOf entries).bind (·.respiratoryRate)) 20 then
    ["High Respiratory Rate"] else []) ++
  (if jsGtNum ((latestOf entries).bind (·.temperature)) 38 then
    ["Elevated Temperature"] else [])

/-- `sleepDebtHours` (source lines 209-219): only when at least 7
processed days exist; last 7 by position, absent sleep counts 0, debt
floored at 0. -/
def sleepDebtHours (entries : List RawRecord) : Option ℚ :=
  let processed := processedOf entries
  if processed.length ≥ 7 then
    let last7 := processed.drop (processed.length - 7)
    let totalSleep := (last7.map fun p => p.sleepHours.getD 0).foldl (· + ·) 0
    let debt := 7 * (7.5 : ℚ) - totalSleep
    some (if debt > 0 then debt else 0)
  else none

/-- `targetSleep` (source lines 226-232). -/
def targetSleep (entries : List RawRecord) : Option ℚ :=
  match recoveryScore entries with
  | none => none
  | some rs =>
    let t1 : ℚ := 8
    let t2 := if rs < 80 then t1 + 0.5 else t1
    let t3 :=
      match exertionScore entries with
      | some es => if es > 120 then t2 + 0.5 else t2
      | none => t2
    let t4 :=
      match sleepDebtHours entries with
      | some sd => if sd > 3 then t3 + 0.5 else t3
      | none => t3
    some t4

/-- The trend builder's recovery sequence over an explicit history and
baselines (source lines 240-247): one entry per day, gaps preserved. -/
def recoveryTrendWith (processed : List NormalizedDay) (bh br : Option ℚ) :
    List (Option ℚ) :=
  processed.map fun p => recoveryFormula bh p.hrv br p.rhr

/-- The trend builder's exertion sequence over an explicit history and
baseline (source lines 248-253). -/
def exertionTrendWith (processed : List NormalizedDay) (bl : Option ℚ) :
    List (Option ℚ) :=
  processed.map fun p => exertionFormula bl p.trainingLoad

/-- `labels` (source line 239). -/
def labelsOf (processed : List NormalizedDay) : List String :=
  processed.map (·.date)

/-- `recoveryTrend` as computed by the page, with the page's own
baselines. -/
def recoveryTrend (entries : List RawRecord) : List (Option ℚ) :=
  recoveryTrendWith (processedOf entries) (baselineHRV entries)
    (baselineRHR entries)

/-- `exertionTrend` as computed by the page, with the page's own
baseline. -/
def exertionTrend (entries : List RawRecord) : List (Option ℚ) :=
  exertionTrendWith (processedOf entries) (baselineLoad entries)

/-- Everything the derivation pipeline hands to the renderer. -/
structure Dashboard where
  processed : List NormalizedDay
  baselineHRV : Option ℚ
  baselineRHR : Option ℚ
  baselineLoad : Option ℚ
  recoveryScore : Option ℤ
  exertionScore : Option ℤ
  targetZone : Option Zone
  sleepQuality : Option Quality
  alerts : List String
  sleepDebtHours : Option ℚ
  targetSleepHours : Option ℚ
  labels : List String
  recoveryTrend : List (Option ℚ)
  exertionTrend : List (Option ℚ)
  deriving DecidableEq, Repr

/-- The whole derivation pipeline of the page (source lines 67-253),
from raw entries to every rendered value. -/
def derive (entries : List RawRecord) : Dashboard :=
  { processed := processedOf entries
    baselineHRV := baselineHRV entries
    baselineRHR := baselineRHR entries
    baselineLoad := baselineLoad entries
    recoveryScore := recoveryScore entries
    exertionScore := exertionScore entries
    targetZone := targetZone entries
    sleepQuality := sleepQuality entries
    alerts := alerts entries
    sleepDebtHours := sleepDebtHours entries
    targetSleepHours := targetSleep entries
    labels := labelsOf (processedOf entries)
    recoveryTrend := recoveryTrend entries
    exertionTrend := exertionTrend entries }

/-! Concrete histories used to instantiate the theorems. -/

/-- A record carrying only HRV and resting heart rate. -/
def mkDayHR (h r : ℚ) : RawRecord :=
  { ingest_date := some "2024-01-01T00:00:00Z"
    metrics := some [("hrv", RawVal.num h), ("restingHeartRate", RawVal.num r)]
    workouts := none }

/-- A record carrying only a sleep duration in hours. -/
def mkDaySleep (s : ℚ) : RawRecord :=
  { ingest_date := some "2024-01-01T00:00:00Z"
    metrics := some [("sleepHours", RawVal.num s)]
    workouts := none }

/-- Two days whose HRV baseline is 50 and RHR baseline is 60, with latest
HRV 55 and latest RHR 55 — the spec's recovery-score example. -/
def exHistC1 : List RawRecord := [mkDayHR 45 65, mkDayHR 55 55]

/-- Seven days of 7 hours of sleep each. -/
def exSleep7 : List RawRecord := List.replicate 7 (mkDaySleep 7)

/-- Seven days of 8 hours of sleep each. -/
def exSleep8 : List RawRecord := List.replicate 7 (mkDaySleep 8)

/-- A record whose HRV resolves to a string that fails numeric coercion. -/
def badHrvRec : RawRecord :=
  { ingest_date := some "2024-01-02T10:00:00Z"
    metrics := some [("hrv", RawVal.str "abc")]
    workouts := none }

/-- A normalized day holding only an HRV value. -/
def mkHrvDay (q : ℚ) : NormalizedDay :=
  { date := "", hrv := some (.num q), rhr := none, steps := none
    sleepHours := none, trainingLoad := none, spo2 := none
    respiratoryRate := none, temperature := none }

/-- HRV days 60, 70, 80 — the spec's baseline example. -/
def exDays3 : List NormalizedDay := [mkHrvDay 60, mkHrvDay 70, mkHrvDay 80]

/-- A permutation of `exDays3`. -/
def exDays3rev : List NormalizedDay := [mkHrvDay 80, mkHrvDay 60, mkHrvDay 70]

/-! Helper lemmas shared by the claim theorems. -/

/-- The left-fold sum used by the source's `reduce` calls agrees with
`List.sum`. -/
theorem foldl_add_eq_sum (l : List ℚ) : l.foldl (· + ·) 0 = l.sum :=
  List.sum_eq_foldl.symm

/-- `recoveryFormula` on four truthy operands. -/
theorem recoveryFormula_some (b h b2 r : ℚ) (hb : b ≠ 0) (hh : h ≠ 0)
    (hb2 : b2 ≠ 0) (hr : r ≠ 0) :
    recoveryFormula (some b) (some (.num h)) (some b2) (some (.num r)) =
      some (((h / b) * 0.7 + (b2 / r) * 0.3) * 100) := by
  simp [recoveryFormula, hb, hh, hb2, hr]

/-- `recoveryFormula` is absent whenever any operand is absent or zero. -/
theorem recoveryFormula_none (bh : Option ℚ) (hv : Option JSNum)
    (br : Option ℚ) (rv : Option JSNum)
    (habs : bh = none ∨ bh = some 0 ∨ hv = none ∨ hv = some (.num 0) ∨
      br = none ∨ br = some 0 ∨ rv = none ∨ rv = some (.num 0)) :
    recoveryFormula bh hv br rv = none := by
  rcases bh with _ | b <;> rcases hv with _ | (_ | h) <;>
    rcases br with _ | b2 <;> rcases rv with _ | (_ | r) <;>
    (simp_all [recoveryFormula]; try tauto)

/-- `exertionFormula` on two truthy operands. -/
theorem exertionFormula_some (b t : ℚ) (hb : b ≠ 0) (ht : t ≠ 0) :
    exertionFormula (some b) (some (.num t)) = some ((t / b) * 100) := by
  simp [exertionFormula, hb, ht]

/-- `exertionFormula` is absent whenever either operand is absent or
zero. -/
theorem exertionFormula_none (bl : Option ℚ) (tl : Option JSNum)
    (habs : bl = none ∨ bl = some 0 ∨ tl = none ∨ tl = some (.num 0)) :
    exertionFormula bl tl = none := by
  rcases bl with _ | b <;> rcases tl with _ | (_ | t) <;>
    (simp_all [exertionFormula]; try tauto)

/-- Numeric coercion preserves absence exactly. -/
theorem coerce_none_iff (v : Option RawVal) : coerce v = none ↔ v = none := by
  cases v <;> simp [coerce]

/-- Claim C1: for every history, when the latest day's HRV and RHR and
the HRV and RHR baselines are all present and truthy, the recovery score
is the rounded weighted formula; when any of the four operands is absent
or zero, the recovery score is absent. -/
theorem C1_recoveryScore (entries : List RawRecord) :
    (∀ bh h br r : ℚ,
      baselineHRV entries = some bh →
      latestField entries (·.hrv) = some (JSNum.num h) →
      baselineRHR entries = some br →
      latestField entries (·.rhr) = some (JSNum.num r) →
      bh ≠ 0 → h ≠ 0 → br ≠ 0 → r ≠ 0 →
      recoveryScore entries =
        some (jsRound (((h / bh) * 0.7 + (br / r) * 0.3) * 100))) ∧
    ((baselineHRV entries = none ∨ baselineHRV entries = some 0 ∨
      latestField entries (·.hrv) = none ∨
      latestField entries (·.hrv) = some (JSNum.num 0) ∨
      baselineRHR entries = none ∨ baselineRHR entries = some 0 ∨
      latestField entries (·.rhr) = none ∨
      latestField entries (·.rhr) = some (JSNum.num 0)) →
      recoveryScore entries = none) := by
  constructor
  · intro bh h br r hbh hh hbr hr nbh nh nbr nr
    simp only [recoveryScore, hbh, hh, hbr, hr,
      recoveryFormula_some bh h br r nbh nh nbr nr, Option.map_some']
  · intro habs
    simp only [recoveryScore,
      recoveryFormula_none _ _ _ _ habs, Option.map_none']

/-- Witness for C1: on the spec's example history (baselines 50 and 60,
latest HRV 55 and RHR 55) the score is the rounded formula, namely 110. -/
theorem C1_recoveryScore_witness :
    recoveryScore exHistC1 =
      some (jsRound ((((55 : ℚ) / 50) * 0.7 + ((60 : ℚ) / 55) * 0.3) * 100)) ∧
    recoveryScore exHistC1 = some 110 := by
  have hbh : baselineHRV exHistC1 = some 50 := by
    have h : (processedOf exHistC1).map (·.hrv) =
        [some (JSNum.num 45), some (JSNum.num 55)] := by decide
    rw [baselineHRV, h]
    norm_num [baselineOf, finiteVals, List.filterMap, List.foldl]
  have hbr : baselineRHR exHistC1 = some 60 := by
    have h : (processedOf exHistC1).map (·.rhr) =
        [some (JSNum.num 65), some (JSNum.num 55)] := by decide
    rw [baselineRHR, h]
    norm_num [baselineOf, finiteVals, List.filterMap, List.foldl]
  have hh : latestField exHistC1 (·.hrv) = some (JSNum.num 55) := by decide
  have hr : latestField exHistC1 (·.rhr) = some (JSNum.num 55) := by decide
  have main := (C1_recoveryScore exHistC1).1 50 55 60 55 hbh hh hbr hr
    (by norm_num) (by norm_num) (by norm_num) (by norm_num)
  refine ⟨main, main.trans ?_⟩
  norm_num [jsRound]

/-- Claim C2 counterexample: the claim says a string value that parses is
subjected to the same greater-than-50 seconds heuristic, so "27000"
should become 27000 / 3600 = 7.5 hours; the code returns the parsed
value 27000 unscaled. -/
theorem C2_counterexample :
    normalizeSleep (some (RawVal.str "27000")) = some 27000 ∧
    (27000 : ℚ) / 3600 = 7.5 ∧
    normalizeSleep (some (RawVal.str "27000")) ≠ some ((27000 : ℚ) / 3600) := by
  have h : normalizeSleep (some (RawVal.str "27000")) = some 27000 := by
    simp [normalizeSleep, jsParseFloat, parseDec, takeNeg, takeDigitsAux]
  refine ⟨h, by norm_num, ?_⟩
  rw [h]
  simp only [ne_eq, Option.some.injEq]
  norm_num

/-- Claim C2 (amended): absent input yields absent; a numeric value above
50 is divided by 3600; a numeric value at most 50 (including 50) passes
through; a string that parses via parseFloat yields the parsed value
unchanged, with no threshold applied; a string that fails to parse yields
absent.  In particular normalizeSleep on the number 50 gives 50 and on
the number 27000 gives 7.5. -/
theorem C2_normalizeSleep :
    normalizeSleep none = none ∧
    (∀ q : ℚ, 50 < q → normalizeSleep (some (.num q)) = some (q / 3600)) ∧
    (∀ q : ℚ, q ≤ 50 → normalizeSleep (some (.num q)) = some q) ∧
    (∀ s q, jsParseFloat s = .num q → normalizeSleep (some (.str s)) = some q) ∧
    (∀ s, jsParseFloat s = .nan → normalizeSleep (some (.str s)) = none) ∧
    normalizeSleep (some (.num 50)) = some 50 ∧
    normalizeSleep (some (.num 27000)) = some 7.5 := by
  refine ⟨rfl, ?_, ?_, ?_, ?_, by norm_num [normalizeSleep],
    by norm_num [normalizeSleep]⟩
  · intro q hq; simp [normalizeSleep, hq]
  · intro q hq; simp [normalizeSleep, not_lt.mpr hq]
  · intro s q hpf; simp [normalizeSleep, hpf]
  · intro s hpf; simp [normalizeSleep, hpf]

/-- Witness for C2 (amended) at concrete inputs: 27000 seconds become 7.5
hours, and the string "27000" parses to 27000 and is not rescaled. -/
theorem C2_normalizeSleep_witness :
    normalizeSleep (some (RawVal.num 27000)) = some ((27000 : ℚ) / 3600) ∧
    jsParseFloat "27000" = JSNum.num 27000 ∧
    normalizeSleep (some (RawVal.str "27000")) = some 27000 ∧
    normalizeSleep (some (RawVal.str "abc")) = none := by
  have hp : jsParseFloat "27000" = JSNum.num 27000 := by
    simp [jsParseFloat, parseDec, takeNeg, takeDigitsAux]
  exact ⟨C2_normalizeSleep.2.1 27000 (by norm_num), hp,
    C2_normalizeSleep.2.2.2.1 "27000" 27000 hp,
    C2_normalizeSleep.2.2.2.2.1 "abc" (by decide)⟩

/-- Claim C3 counterexample: with HRV resolving to the string "abc",
numeric coercion fails, and the normalized HRV field holds NaN rather
than being absent as the claim requires. -/
theorem C3_counterexample :
    getMetric [("hrv", RawVal.str "abc")] hrvKeys = some (RawVal.str "abc") ∧
    jsNumber (RawVal.str "abc") = JSNum.nan ∧
    (normalize badHrvRec).hrv = some JSNum.nan ∧
    (normalize badHrvRec).hrv ≠ none := by
  refine ⟨by decide, by decide, by decide, by decide⟩

/-- Claim C3 (amended): for every raw record and every non-sleep metric
field, the field is absent if and only if no candidate key resolved to a
non-null value; a resolved value is stored as its numeric coercion, so a
value whose coercion fails yields a NaN field value (later excluded by
the baseline filter), not an absent field. -/
theorem C3_normalize_fields (entry : RawRecord) :
    ((normalize entry).hrv = none ↔
      getMetric (entry.metrics.getD []) hrvKeys = none) ∧
    (∀ v, getMetric (entry.metrics.getD []) hrvKeys = some v →
      (normalize entry).hrv = some (jsNumber v)) ∧
    ((normalize entry).rhr = none ↔
      getMetric (entry.metrics.getD []) rhrKeys = none) ∧
    (∀ v, getMetric (entry.metrics.getD []) rhrKeys = some v →
      (normalize entry).rhr = some (jsNumber v)) ∧
    ((normalize entry).steps = none ↔
      getMetric (entry.metrics.getD []) stepsKeys = none) ∧
    (∀ v, getMetric (entry.metrics.getD []) stepsKeys = some v →
      (normalize entry).steps = some (jsNumber v)) ∧
    ((normalize entry).trainingLoad = none ↔
      getMetric (entry.metrics.getD []) loadKeys = none) ∧
    (∀ v, getMetric (entry.metrics.getD []) loadKeys = some v →
      (normalize entry).trainingLoad = some (jsNumber v)) ∧
    ((normalize entry).spo2 = none ↔
      getMetric (entry.metrics.getD []) spo2Keys = none) ∧
    (∀ v, getMetric (entry.metrics.getD []) spo2Keys = some v →
      (normalize entry).spo2 = some (jsNumber v)) ∧
    ((normalize entry).respiratoryRate = none ↔
      getMetric (entry.metrics.getD []) respKeys = none) ∧
    (∀ v, getMetric (entry.metrics.getD []) respKeys = some v →
      (normalize entry).respiratoryRate = some (jsNumber v)) ∧
    ((normalize entry).temperature = none ↔
      getMetric (entry.metrics.getD []) tempKeys = none) ∧
    (∀ v, getMetric (entry.metrics.getD []) tempKeys = some v →
      (normalize entry).temperature = some (jsNumber v)) := by
  refine ⟨coerce_none_iff _, fun v hv => ?_, coerce_none_iff _,
    fun v hv => ?_, coerce_none_iff _, fun v hv => ?_, coerce_none_iff _,
    fun v hv => ?_, coerce_none_iff _, fun v hv => ?_, coerce_none_iff _,
    fun v hv => ?_, coerce_none_iff _, fun v hv => ?_⟩ <;>
    simp [normalize, hv, coerce]

/-- Witness for C3 (amended) at `badHrvRec`: the resolved "abc" is stored
as its coercion NaN, and the unresolved RHR field is absent. -/
theorem C3_normalize_fields_witness :
    (normalize badHrvRec).hrv = some (jsNumber (RawVal.str "abc")) ∧
    jsNumber (RawVal.str "abc") = JSNum.nan ∧
    (normalize badHrvRec).rhr = none :=
  ⟨(C3_normalize_fields badHrvRec).2.1 (RawVal.str "abc") (by decide),
    by decide,
    ((C3_normalize_fields badHrvRec).2.2.1).mpr (by decide)⟩

/-- The source's truncation `debt > 0 ? debt : 0` is a floor at zero. -/
theorem if_pos_eq_max (d : ℚ) : (if d > 0 then d else 0) = max 0 d := by
  rcases le_or_lt d 0 with h | h
  · rw [if_neg (not_lt.mpr h), max_eq_left h]
  · rw [if_pos h, max_eq_right h.le]

/-- Sleep debt is absent exactly on histories shorter than 7 days. -/
theorem sleepDebtHours_eq_none_iff (entries : List RawRecord) :
    sleepDebtHours entries = none ↔ entries.length < 7 := by
  simp only [sleepDebtHours, processedOf, List.length_map]
  split_ifs with h
  · simp only [reduceCtorEq, false_iff]
    omega
  · simp only [true_iff]
    omega

/-- Sleep debt is never negative when present. -/
theorem sleepDebtHours_nonneg (entries : List RawRecord) (d : ℚ)
    (hd : sleepDebtHours entries = some d) : 0 ≤ d := by
  simp only [sleepDebtHours] at hd
  by_cases h : (processedOf entries).length ≥ 7
  · rw [if_pos h, if_pos_eq_max, Option.some_inj] at hd
    rw [← hd]
    exact le_max_left 0 _
  · rw [if_neg h] at hd
    cases hd

/-- Claim C4: sleep debt is absent below 7 days of history; with at least
7 days it is 52.5 minus the positional last-7 sleep sum (absent sleep
counting 0), floored at 0. -/
theorem C4_sleepDebt (entries : List RawRecord) :
    ((processedOf entries).length < 7 → sleepDebtHours entries = none) ∧
    (∀ pre last7 : List NormalizedDay,
      processedOf entries = pre ++ last7 → last7.length = 7 →
      sleepDebtHours entries =
        some (max 0 (52.5 - (last7.map fun p => p.sleepHours.getD 0).sum))) := by
  constructor
  · intro hlt
    rw [sleepDebtHours_eq_none_iff]
    simpa [processedOf] using hlt
  · intro pre last7 hsplit hlen
    simp only [sleepDebtHours, hsplit, List.length_append, hlen]
    rw [if_pos (by omega)]
    have hdrop : (pre ++ last7).drop (pre.length + 7 - 7) = last7 := by
      simp [List.drop_left]
    rw [hdrop, foldl_add_eq_sum, if_pos_eq_max]
    norm_num

/-- Witness for C4 at the spec's examples: seven nights of 7 hours give
debt 3.5, seven nights of 8 hours give 0, two days give absent. -/
theorem C4_sleepDebt_witness :
    sleepDebtHours exSleep7 =
      some (max 0 (52.5 -
        ((processedOf exSleep7).map fun p => p.sleepHours.getD 0).sum)) ∧
    sleepDebtHours exSleep7 = some 3.5 ∧
    sleepDebtHours exSleep8 = some 0 ∧
    sleepDebtHours exHistC1 = none := by
  have h7 := (C4_sleepDebt exSleep7).2 [] (processedOf exSleep7)
    (by simp) (by decide)
  have h8 := (C4_sleepDebt exSleep8).2 [] (processedOf exSleep8)
    (by simp) (by decide)
  have hm7 : (processedOf exSleep7).map (fun p => p.sleepHours.getD 0) =
      [7, 7, 7, 7, 7, 7, 7] := by decide
  have hm8 : (processedOf exSleep8).map (fun p => p.sleepHours.getD 0) =
      [8, 8, 8, 8, 8, 8, 8] := by decide
  refine ⟨h7, ?_, ?_, (C4_sleepDebt exHistC1).1 (by decide)⟩
  · rw [h7, hm7]
    norm_num [List.sum_cons]
  · rw [h8, hm8]
    norm_num [List.sum_cons]

/-- The target zone is absent exactly when the recovery score is. -/
theorem targetZone_none_iff (entries : List RawRecord) :
    targetZone entries = none ↔ recoveryScore entries = none := by
  unfold targetZone
  cases recoveryScore entries with
  | none => simp
  | some s =>
    show (if s ≥ 90 then some Zone.High
      else if s ≥ 70 then some Zone.Moderate else some Zone.Low) = none ↔
      some s = none
    split_ifs <;> simp

/-- Claim C5: the target zone is absent exactly when the recovery score
is; otherwise High at 90 and above, Moderate from 70 below 90, Low below
70. -/
theorem C5_targetZone (entries : List RawRecord) :
    (targetZone entries = none ↔ recoveryScore entries = none) ∧
    (∀ s : ℤ, recoveryScore entries = some s →
      (90 ≤ s → targetZone entries = some Zone.High) ∧
      (70 ≤ s → s < 90 → targetZone entries = some Zone.Moderate) ∧
      (s < 70 → targetZone entries = some Zone.Low)) := by
  refine ⟨targetZone_none_iff entries, ?_⟩
  intro s hs
  unfold targetZone
  simp only [hs]
  refine ⟨fun h => ?_, fun h1 h2 => ?_, fun h => ?_⟩
  · rw [if_pos (by omega : s ≥ 90)]
  · rw [if_neg (by omega : ¬s ≥ 90), if_pos (by omega : s ≥ 70)]
  · rw [if_neg (by omega : ¬s ≥ 90), if_neg (by omega : ¬s ≥ 70)]

/-- The recovery score of the example history, computed once for reuse in
concrete instantiations. -/
theorem recoveryScore_exHistC1 : recoveryScore exHistC1 = some 110 := by
  have hbh : baselineHRV exHistC1 = some 50 := by
    have h : (processedOf exHistC1).map (·.hrv) =
        [some (JSNum.num 45), some (JSNum.num 55)] := by decide
    rw [baselineHRV, h]
    norm_num [baselineOf, finiteVals, List.filterMap, List.foldl]
  have hbr : baselineRHR exHistC1 = some 60 := by
    have h : (processedOf exHistC1).map (·.rhr) =
        [some (JSNum.num 65), some (JSNum.num 55)] := by decide
    rw [baselineRHR, h]
    norm_num [baselineOf, finiteVals, List.filterMap, List.foldl]
  have hh : latestField exHistC1 (·.hrv) = some (JSNum.num 55) := by decide
  have hr : latestField exHistC1 (·.rhr) = some (JSNum.num 55) := by decide
  rw [recoveryScore, hbh, hbr, hh, hr,
    recoveryFormula_some 50 55 60 55 (by norm_num) (by norm_num)
      (by norm_num) (by norm_num)]
  norm_num [jsRound]

/-- Witness for C5: the example history scores 110, which is High. -/
theorem C5_targetZone_witness :
    (90 : ℤ) ≤ 110 ∧ targetZone exHistC1 = some Zone.High :=
  ⟨by norm_num,
    ((C5_targetZone exHistC1).2 110 recoveryScore_exHistC1).1 (by norm_num)⟩

/-- The target sleep recommendation is absent exactly when the recovery
score is. -/
theorem targetSleep_none_iff (entries : List RawRecord) :
    targetSleep entries = none ↔ recoveryScore entries = none := by
  unfold targetSleep
  cases recoveryScore entries with
  | none => simp
  | some s =>
    constructor
    · intro h
      exact absurd h (by simp)
    · intro h
      cases h

/-- Closed form of the target sleep recommendation when the recovery
score is present: 8 plus half an hour for each firing condition. -/
theorem targetSleep_eq (entries : List RawRecord) (s : ℤ)
    (hs : recoveryScore entries = some s) :
    targetSleep entries =
      some (8 + (if s < 80 then (0.5 : ℚ) else 0)
        + (match exertionScore entries with
           | some e => if 120 < e then (0.5 : ℚ) else 0
           | none => 0)
        + (match sleepDebtHours entries with
           | some d => if 3 < d then (0.5 : ℚ) else 0
           | none => 0)) := by
  unfold targetSleep
  rw [hs]
  cases hE : exertionScore entries <;> cases hD : sleepDebtHours entries <;>
    simp only [Option.some_inj] <;> split_ifs <;> norm_num

/-- When present, the target sleep recommendation lies between 8 and
9.5 hours. -/
theorem targetSleep_range (entries : List RawRecord) (t : ℚ)
    (ht : targetSleep entries = some t) : 8 ≤ t ∧ t ≤ 9.5 := by
  cases hs : recoveryScore entries with
  | none => rw [(targetSleep_none_iff entries).mpr hs] at ht; cases ht
  | some s =>
    rw [targetSleep_eq entries s hs, Option.some_inj] at ht
    rw [← ht]
    rcases hE : exertionScore entries with _ | e <;>
      rcases hD : sleepDebtHours entries with _ | d <;>
      simp only [hE, hD] <;> split_ifs <;> norm_num

/-- Claim C6: target sleep is absent exactly when the recovery score is;
when defined it is 8.0 plus 0.5 for each of: recovery score below 80,
exertion score present above 120, sleep debt present above 3; hence it
always lies in [8, 9.5] when defined. -/
theorem C6_targetSleep (entries : List RawRecord) :
    (targetSleep entries = none ↔ recoveryScore entries = none) ∧
    (∀ s : ℤ, recoveryScore entries = some s →
      targetSleep entries =
        some (8 + (if s < 80 then (0.5 : ℚ) else 0)
          + (match exertionScore entries with
             | some e => if 120 < e then (0.5 : ℚ) else 0
             | none => 0)
          + (match sleepDebtHours entries with
             | some d => if 3 < d then (0.5 : ℚ) else 0
             | none => 0))) ∧
    (∀ t : ℚ, targetSleep entries = some t → 8 ≤ t ∧ t ≤ 9.5) :=
  ⟨targetSleep_none_iff entries, targetSleep_eq entries,
    targetSleep_range entries⟩

/-- Witness for C6: on the example history (score 110, no exertion score,
no sleep debt) every condition fails and the recommendation is exactly
8 hours, inside [8, 9.5]. -/
theorem C6_targetSleep_witness :
    targetSleep exHistC1 = some 8 ∧ (8 : ℚ) ≤ 8 ∧ (8 : ℚ) ≤ 9.5 := by
  have hE : exertionScore exHistC1 = none := by decide
  have hD : sleepDebtHours exHistC1 = none := by decide
  have h := (C6_targetSleep exHistC1).2.1 110 recoveryScore_exHistC1
  rw [hE, hD] at h
  have h8 : targetSleep exHistC1 = some 8 := by
    rw [h]
    norm_num
  exact ⟨h8, ((C6_targetSleep exHistC1).2.2 8 h8).1,
    ((C6_targetSleep exHistC1).2.2 8 h8).2⟩

/-- Claim C7: for every normalized history of length N and any baselines,
the trend builder returns dates, recovery and exertion sequences of
length exactly N, with an explicit absent entry wherever the baseline or
the day's value is missing or zero, and each defined entry equal to the
unrounded formula. -/
theorem C7_trends (processed : List NormalizedDay) (bh br bl : Option ℚ) :
    (labelsOf processed).length = processed.length ∧
    (recoveryTrendWith processed bh br).length = processed.length ∧
    (exertionTrendWith processed bl).length = processed.length ∧
    (∀ entries : List RawRecord,
      (recoveryTrend entries).length = entries.length ∧
      (exertionTrend entries).length = entries.length) ∧
    (∀ (i : ℕ) (p : NormalizedDay), processed[i]? = some p →
      (recoveryTrendWith processed bh br)[i]? =
        some (recoveryFormula bh p.hrv br p.rhr) ∧
      (exertionTrendWith processed bl)[i]? =
        some (exertionFormula bl p.trainingLoad) ∧
      ((bh = none ∨ bh = some 0 ∨ p.hrv = none ∨ p.hrv = some (.num 0) ∨
        br = none ∨ br = some 0 ∨ p.rhr = none ∨ p.rhr = some (.num 0)) →
        (recoveryTrendWith processed bh br)[i]? = some none) ∧
      (∀ b h b2 r : ℚ, bh = some b → p.hrv = some (.num h) →
        br = some b2 → p.rhr = some (.num r) →
        b ≠ 0 → h ≠ 0 → b2 ≠ 0 → r ≠ 0 →
        (recoveryTrendWith processed bh br)[i]? =
          some (some (((h / b) * 0.7 + (b2 / r) * 0.3) * 100))) ∧
      ((bl = none ∨ bl = some 0 ∨ p.trainingLoad = none ∨
        p.trainingLoad = some (.num 0)) →
        (exertionTrendWith processed bl)[i]? = some none) ∧
      (∀ b t : ℚ, bl = some b → p.trainingLoad = some (.num t) →
        b ≠ 0 → t ≠ 0 →
        (exertionTrendWith processed bl)[i]? = some (some ((t / b) * 100)))) := by
  refine ⟨by simp [labelsOf], by simp [recoveryTrendWith],
    by simp [exertionTrendWith], ?_, ?_⟩
  · intro entries
    exact ⟨by simp [recoveryTrend, recoveryTrendWith, processedOf],
      by simp [exertionTrend, exertionTrendWith, processedOf]⟩
  · intro i p hp
    have hr : (recoveryTrendWith processed bh br)[i]? =
        some (recoveryFormula bh p.hrv br p.rhr) := by
      simp [recoveryTrendWith, hp]
    have he : (exertionTrendWith processed bl)[i]? =
        some (exertionFormula bl p.trainingLoad) := by
      simp [exertionTrendWith, hp]
    refine ⟨hr, he, fun habs => ?_,
      fun b h b2 r h1 h2 h3 h4 n1 n2 n3 n4 => ?_,
      fun habs => ?_, fun b t h1 h2 n1 n2 => ?_⟩
    · rw [hr, recoveryFormula_none _ _ _ _ habs]
    · rw [hr, h1, h2, h3, h4, recoveryFormula_some b h b2 r n1 n2 n3 n4]
    · rw [he, exertionFormula_none _ _ habs]
    · rw [he, h1, h2, exertionFormula_some b t n1 n2]

/-- Witness for C7 at the example history with baselines 50 and 60 and no
load baseline: the first recovery entry is the unrounded formula and the
first exertion entry is an explicit gap. -/
theorem C7_trends_witness :
    (recoveryTrendWith (processedOf exHistC1) (some 50) (some 60))[0]? =
      some (some ((((45 : ℚ) / 50) * 0.7 + ((60 : ℚ) / 65) * 0.3) * 100)) ∧
    (exertionTrendWith (processedOf exHistC1) none)[0]? = some none ∧
    (recoveryTrendWith (processedOf exHistC1) (some 50) (some 60)).length = 2 := by
  have hp : (processedOf exHistC1)[0]? = some (normalize (mkDayHR 45 65)) := by
    decide
  have hparts := (C7_trends (processedOf exHistC1) (some 50) (some 60) none).2.2.2.2
    0 (normalize (mkDayHR 45 65)) hp
  have hhrv : (normalize (mkDayHR 45 65)).hrv = some (JSNum.num 45) := by decide
  have hrhr : (normalize (mkDayHR 45 65)).rhr = some (JSNum.num 65) := by decide
  refine ⟨hparts.2.2.2.1 50 45 60 65 rfl hhrv rfl hrhr
      (by norm_num) (by norm_num) (by norm_num) (by norm_num),
    hparts.2.2.2.2.1 (Or.inl rfl), ?_⟩
  have hlen := (C7_trends (processedOf exHistC1) (some 50) (some 60) none).2.1
  rw [hlen]
  decide

/-- Claim C8: a baseline is the arithmetic mean of the finite selected
values, absent exactly when none exist, and invariant under permutation
of the history. -/
theorem C8_baseline (hist hist2 : List NormalizedDay)
    (sel : NormalizedDay → Option JSNum) :
    (baselineOf (hist.map sel) = none ↔ finiteVals (hist.map sel) = []) ∧
    (∀ q : ℚ, baselineOf (hist.map sel) = some q →
      q = (finiteVals (hist.map sel)).sum /
        ((finiteVals (hist.map sel)).length : ℚ)) ∧
    (hist.Perm hist2 → baselineOf (hist.map sel) = baselineOf (hist2.map sel)) := by
  refine ⟨?_, ?_, ?_⟩
  · simp only [baselineOf]
    split_ifs with h
    · simp [List.length_eq_zero.mp h]
    · simp only [reduceCtorEq, false_iff]
      intro hc
      rw [List.length_eq_zero] at h
      exact h hc
  · intro q hq
    simp only [baselineOf] at hq
    by_cases h : (finiteVals (hist.map sel)).length = 0
    · rw [if_pos h] at hq
      cases hq
    · rw [if_neg h, Option.some_inj, foldl_add_eq_sum] at hq
      exact hq.symm
  · intro hperm
    have hf : (finiteVals (hist.map sel)).Perm (finiteVals (hist2.map sel)) :=
      (hperm.map sel).filterMap _
    simp only [baselineOf, foldl_add_eq_sum, hf.length_eq, hf.sum_eq]

/-- Witness for C8: the baseline of HRV days 60, 70, 80 is 70, equals the
mean, is invariant under reordering, and the empty history gives an
absent baseline. -/
theorem C8_baseline_witness :
    baselineOf (exDays3.map (·.hrv)) = some 70 ∧
    (70 : ℚ) = (finiteVals (exDays3.map (·.hrv))).sum /
      ((finiteVals (exDays3.map (·.hrv))).length : ℚ) ∧
    baselineOf (exDays3.map (·.hrv)) = baselineOf (exDays3rev.map (·.hrv)) ∧
    baselineOf (([] : List NormalizedDay).map (·.hrv)) = none := by
  have hm : exDays3.map (·.hrv) =
      [some (JSNum.num 60), some (JSNum.num 70), some (JSNum.num 80)] := by
    decide
  have hb : baselineOf (exDays3.map (·.hrv)) = some 70 := by
    rw [hm]
    norm_num [baselineOf, finiteVals, List.filterMap, List.foldl]
  exact ⟨hb, (C8_baseline exDays3 exDays3rev (·.hrv)).2.1 70 hb,
    (C8_baseline exDays3 exDays3rev (·.hrv)).2.2 (by decide),
    ((C8_baseline [] [] (·.hrv)).1).mpr rfl⟩

/-- Claim C9: on every input, however sparse, the pipeline is a total
function producing a structurally valid dashboard: per-day sequences of
the input's length, a non-negative sleep debt when present, a target
sleep inside [8, 9.5] when present, and absence propagating coherently
instead of any error. -/
theorem C9_pipeline_total (entries : List RawRecord) :
    (derive entries).processed.length = entries.length ∧
    (derive entries).labels.length = entries.length ∧
    (derive entries).recoveryTrend.length = entries.length ∧
    (derive entries).exertionTrend.length = entries.length ∧
    (∀ d : ℚ, (derive entries).sleepDebtHours = some d → 0 ≤ d) ∧
    (∀ t : ℚ, (derive entries).targetSleepHours = some t → 8 ≤ t ∧ t ≤ 9.5) ∧
    ((derive entries).targetZone = none ↔ (derive entries).recoveryScore = none) ∧
    ((derive entries).targetSleepHours = none ↔
      (derive entries).recoveryScore = none) ∧
    ((derive entries).sleepDebtHours = none ↔ entries.length < 7) := by
  refine ⟨by simp [derive, processedOf],
    by simp [derive, labelsOf, processedOf],
    by simp [derive, recoveryTrend, recoveryTrendWith, processedOf],
    by simp [derive, exertionTrend, exertionTrendWith, processedOf],
    sleepDebtHours_nonneg entries, targetSleep_range entries,
    targetZone_none_iff entries, targetSleep_none_iff entries,
    sleepDebtHours_eq_none_iff entries⟩

/-- The sleep debt of seven 7-hour nights, computed directly for reuse. -/
theorem sleepDebt_exSleep7 : sleepDebtHours exSleep7 = some 3.5 := by
  have hlen : (processedOf exSleep7).length = 7 := by decide
  have hm : ((processedOf exSleep7).drop (7 - 7)).map
      (fun p => p.sleepHours.getD 0) = [7, 7, 7, 7, 7, 7, 7] := by decide
  simp only [sleepDebtHours, hlen]
  rw [if_pos (by norm_num), foldl_add_eq_sum, hm]
  norm_num [List.sum_cons]

/-- Witness for C9: seven recorded nights give the non-negative debt 3.5,
and the two-day history gives an absent debt. -/
theorem C9_pipeline_total_witness :
    (0 : ℚ) ≤ 3.5 ∧ (derive exHistC1).sleepDebtHours = none :=
  ⟨(C9_pipeline_total exSleep7).2.2.2.2.1 3.5 sleepDebt_exSleep7,
    (C9_pipeline_total exHistC1).2.2.2.2.2.2.2.2.mpr (by decide)⟩

/-- Claim C10: normalization is deterministic and per-record independent:
the normalized day at any position is the pure image of the raw record at
that position, so equal records in any two histories normalize to equal
days. -/
theorem C10_normalize_independent (entries entries2 : List RawRecord)
    (i j : ℕ) :
    ((processedOf entries)[i]? = (entries[i]?).map normalize) ∧
    (entries[i]? = entries2[j]? →
      (processedOf entries)[i]? = (processedOf entries2)[j]?) := by
  have h1 : ∀ (l : List RawRecord) (k : ℕ),
      (processedOf l)[k]? = (l[k]?).map normalize := by
    intro l k
    simp [processedOf]
  exact ⟨h1 entries i, fun hij => by rw [h1 entries i, h1 entries2 j, hij]⟩

/-- A second history sharing one raw record with the example history. -/
def exHistB : List RawRecord := [mkDayHR 55 55, mkDaySleep 7]

/-- Witness for C10: the shared record at position 1 of one history and
position 0 of the other normalizes identically in both. -/
theorem C10_normalize_independent_witness :
    (processedOf exHistC1)[1]? = (processedOf exHistB)[0]? :=
  (C10_normalize_independent exHistC1 exHistB 1 0).2 (by decide)

end HealthLive
